import Mathlib

/-!
Shallow embedding of the sqlalchemy_multidb_manager repository
(src/db_cacher.py and src/db_factory.py) together with theorems settling
the specification claims about it.

Modelling conventions:
* Python timestamps (time.time(), TTLs) are rationals.
* Python ints are integers; a value of type `int | None` is `Option ℤ`.
* The Python dict `_connections` is an association list; its operations
  translate dict lookup, item assignment and `del`.
* Methods that mutate `self` are state transformers returning the updated
  object; `get` (which performs no writes) returns its value paired with
  the unchanged state.
* Exceptions are `Except`; the SQLAlchemy engine/pool is opaque: an
  `Engine` records the construction keyword arguments of `create_engine`,
  and the outcome of `Engine.connect()` is supplied by an oracle
  `connect : Engine → Except PyExc Connection`.
* `int(x/3)` on Python ints is modelled as exact truncated division
  `Int.div x 3` (truncation toward zero).
-/

/-- Lookup in a Python dict modelled as an association list: first binding wins. -/
def dictGet {K V : Type} [DecidableEq K] : List (K × V) → K → Option V
  | [], _ => none
  | (k1, v) :: rest, k => if k1 = k then some v else dictGet rest k

/-- Item assignment in a Python dict: replace the existing binding or append. -/
def dictSet {K V : Type} [DecidableEq K] : List (K × V) → K → V → List (K × V)
  | [], k, v => [(k, v)]
  | (k1, v1) :: rest, k, v => if k1 = k then (k, v) :: rest else (k1, v1) :: dictSet rest k v

/-- Deletion in a Python dict: drop the binding for the key. -/
def dictDel {K V : Type} [DecidableEq K] : List (K × V) → K → List (K × V)
  | [], _ => []
  | (k1, v1) :: rest, k => if k1 = k then rest else (k1, v1) :: dictDel rest k

/-- The namedtuple `db_pool = namedtuple("db_pool", "db_pool life_time")`
from db_cacher.py. -/
structure PoolConn (P : Type) where
  db_pool : P
  life_time : ℚ
  deriving DecidableEq

/-- State of `IndividualTTLCache` (db_cacher.py): `_maxsize`, `_default_ttl`
and the `_connections` dict.  The background thread itself is not state;
its loop body is `cleanup_expired_items` below, applied at a sweep time. -/
structure IndividualTTLCache (K P : Type) where
  maxsize : ℤ
  default_ttl : ℚ
  connections : List (K × PoolConn P)

/-- `IndividualTTLCache.__init__`: stores maxsize and default_ttl, starts
with an empty `_connections` dict. -/
def IndividualTTLCache.init {K P : Type} (maxsize : ℤ) (default_ttl : ℚ) :
    IndividualTTLCache K P :=
  { maxsize := maxsize, default_ttl := default_ttl, connections := [] }

/-- `IndividualTTLCache.get`: reads `_connections.get(database_name)` and
returns `database_poll.db_pool if database_poll else None`.  The method
writes nothing, so the returned state is the input state. -/
def IndividualTTLCache.get {K P : Type} [DecidableEq K]
    (c : IndividualTTLCache K P) (database_name : K) :
    Option P × IndividualTTLCache K P :=
  let database_poll := dictGet c.connections database_name
  (Option.map (fun pc => pc.db_pool) database_poll, c)

/-- `IndividualTTLCache.__setitem__`: stores
`self._pool_connection(queue_pool, time.time())`.  Note the source stores
the bare `time.time()` in `life_time`; `_default_ttl` is not added. -/
def IndividualTTLCache.setItem {K P : Type} [DecidableEq K]
    (c : IndividualTTLCache K P) (database_name : K) (queue_pool : P) (now : ℚ) :
    IndividualTTLCache K P :=
  { c with connections := dictSet c.connections database_name ⟨queue_pool, now⟩ }

/-- `IndividualTTLCache.__delitem__`: `if database_name in self._connections:
del self._connections[database_name]`. -/
def IndividualTTLCache.delItem {K P : Type} [DecidableEq K]
    (c : IndividualTTLCache K P) (database_name : K) :
    IndividualTTLCache K P :=
  if (dictGet c.connections database_name).isSome then
    { c with connections := dictDel c.connections database_name }
  else c

/-- One pass of the body of `IndividualTTLCache.cleanup_expired_items`
executed at `current_time`: collect every key whose `life_time` is below
`current_time` and delete each. -/
def IndividualTTLCache.cleanup_expired_items {K P : Type} [DecidableEq K]
    (c : IndividualTTLCache K P) (current_time : ℚ) :
    IndividualTTLCache K P :=
  let keys_to_delete :=
    (c.connections.filter (fun kv => decide (kv.2.life_time < current_time))).map Prod.fst
  keys_to_delete.foldl (fun acc key => acc.delItem key) c

/-- A sequence of `get` calls, each threading the (unchanged) state to the
next; used to state the claims about intervening reads. -/
def IndividualTTLCache.readSeq {K P : Type} [DecidableEq K]
    (c : IndividualTTLCache K P) (ks : List K) : IndividualTTLCache K P :=
  ks.foldl (fun acc key => (acc.get key).2) c

/-- Observer: the `life_time` field stored for a key (the timestamp the
sweep compares against the current time, i.e. the entry's effective
expiry field). -/
def IndividualTTLCache.lifeTimeOf {K P : Type} [DecidableEq K]
    (c : IndividualTTLCache K P) (database_name : K) : Option ℚ :=
  Option.map (fun pc => pc.life_time) (dictGet c.connections database_name)

/-- Python exceptions relevant to db_factory.py: `SQLAlchemyError` and any
other `Exception`. -/
inductive PyExc where
  | sqlalchemyError (msg : String)
  | genericError (msg : String)
  deriving DecidableEq

/-- A record emitted by `logging.error`. -/
structure LogRecord where
  severity : String
  message : String
  deriving DecidableEq

/-- The opaque SQLAlchemy engine/pool: records the keyword arguments that
`create_engine` was called with in `DatabaseManager.create_session`. -/
structure Engine where
  url : String
  pool_size : ℤ
  pool_recycle : ℤ
  max_overflow : ℤ
  pool_pre_ping : Bool
  hide_parameters : Bool
  deriving DecidableEq

/-- The opaque connection returned by `Engine.connect()`. -/
structure Connection where
  source_url : String
  deriving DecidableEq

/-- The SQLAlchemy session produced by
`sessionmaker(autocommit=False, autoflush=False, bind=engine)()`. -/
structure Session where
  bind : Connection
  autocommit : Bool
  autoflush : Bool
  deriving DecidableEq

/-- The runtime shape of a stored sizing attribute: either a plain Python
int or a tuple of ints (the trailing commas in `DatabaseManager.__init__`
produce one-element tuples). -/
inductive PyNum where
  | intVal (n : ℤ)
  | tuple (elems : List ℤ)
  deriving DecidableEq

/-- Whether the stored attribute is a plain int. -/
def PyNum.isInt : PyNum → Bool
  | PyNum.intVal _ => true
  | PyNum.tuple _ => false

/-- Python subscripting `x[0]` on a sizing attribute: succeeds on a
non-empty tuple, raises on an int (TypeError) or empty tuple (IndexError). -/
def PyNum.subscriptZero : PyNum → Except PyExc ℤ
  | PyNum.tuple (x :: _) => Except.ok x
  | PyNum.tuple [] => Except.error (PyExc.genericError "IndexError: tuple index out of range")
  | PyNum.intVal _ => Except.error (PyExc.genericError "TypeError: int is not subscriptable")

/-- Python truthiness of an `int | None` value: `None` and `0` are falsy. -/
def pyTruthyZ : Option ℤ → Bool
  | none => false
  | some v => if v = 0 then false else true

/-- Python `x or d` for `x : int | None` with an int default. -/
def pyOrZ (x : Option ℤ) (d : ℤ) : ℤ :=
  if pyTruthyZ x then x.getD 0 else d

/-- Python `x or fallback` where the fallback expression may itself raise
(it is only reached when `x` is falsy, matching short-circuiting). -/
def pyOrInt (x : Option ℤ) (fallback : Except PyExc ℤ) : Except PyExc ℤ :=
  if pyTruthyZ x then Except.ok (x.getD 0) else fallback

/-- Python `int(m/3)` where `m : int | None`: a `None` operand raises
TypeError; otherwise the quotient truncated toward zero. -/
def intOfDivThree : Option ℤ → Except PyExc ℤ
  | some m => Except.ok (Int.tdiv m 3)
  | none => Except.error (PyExc.genericError "TypeError: unsupported operand type")

/-- State of `DatabaseManager` (db_factory.py): the owned cache plus the
configuration attributes set in `__init__`.  The trailing commas on the
source lines assigning `_regular_db_poolsize` and `_regular_db_recycle`
make those attributes one-element tuples, hence `PyNum`. -/
structure DatabaseManager where
  db_cacher : IndividualTTLCache String Engine
  main_db : String
  db_url : String
  main_db_poolsize : ℤ
  main_db_recycle : ℤ
  regular_db_poolsize : PyNum
  regular_db_recycle : PyNum

/-- `DatabaseManager.__init__` with all six parameters explicit
(`int | None` sizing parameters).  Mirrors the source assignments:
`_main_db_poolsize = main_db_poolsize or 15`,
`_main_db_recycle = main_db_recycle or 900`,
`_regular_db_poolsize = regular_db_poolsize or int(main_db_poolsize/3),`
(a one-element tuple), and similarly for `_regular_db_recycle`; the
fallback divisions use the raw parameters and can raise. -/
def DatabaseManager.init (main_db db_url : String)
    (main_db_poolsize main_db_recycle regular_db_poolsize regular_db_recycle : Option ℤ) :
    Except PyExc DatabaseManager :=
  match pyOrInt regular_db_poolsize (intOfDivThree main_db_poolsize),
        pyOrInt regular_db_recycle (intOfDivThree main_db_recycle) with
  | Except.ok rps, Except.ok rrc =>
      Except.ok
        { db_cacher := IndividualTTLCache.init 10 900,
          main_db := main_db,
          db_url := db_url,
          main_db_poolsize := pyOrZ main_db_poolsize 15,
          main_db_recycle := pyOrZ main_db_recycle 900,
          regular_db_poolsize := PyNum.tuple [rps],
          regular_db_recycle := PyNum.tuple [rrc] }
  | Except.error e, _ => Except.error e
  | _, Except.error e => Except.error e

/-- `DatabaseManager(main_db, db_url)` with every sizing parameter left at
its declared default (15, 900, 5, 300). -/
def DatabaseManager.initDefault (main_db db_url : String) : Except PyExc DatabaseManager :=
  DatabaseManager.init main_db db_url (some 15) (some 900) (some 5) (some 300)

/-- `DatabaseManager(main_db, db_url, main_db_poolsize, main_db_recycle)`
with the regular sizing parameters left at their declared defaults. -/
def DatabaseManager.initPools (main_db db_url : String)
    (main_db_poolsize main_db_recycle : Option ℤ) : Except PyExc DatabaseManager :=
  DatabaseManager.init main_db db_url main_db_poolsize main_db_recycle (some 5) (some 300)

/-- `DatabaseManager._create_pool_connection`: try to obtain a connection
from the pool and wrap it in a session with autocommit and autoflush
disabled; on `SQLAlchemyError` or any other exception, log at error
severity and re-raise the same exception. -/
def createPoolConnection (connect : Engine → Except PyExc Connection) (db_pool : Engine) :
    Except PyExc Session × List LogRecord :=
  match connect db_pool with
  | Except.ok engine =>
      let new_session : Session := { bind := engine, autocommit := false, autoflush := false }
      (Except.ok new_session, [])
  | Except.error (PyExc.sqlalchemyError msg) =>
      (Except.error (PyExc.sqlalchemyError msg),
       [{ severity := "error",
          message := "error while creating database connection from pool: " ++ msg }])
  | Except.error (PyExc.genericError msg) =>
      (Except.error (PyExc.genericError msg),
       [{ severity := "error",
          message := "error raise while creating database connection from pool: " ++ msg }])

/-- `DatabaseManager.create_session`: check the cache; on a hit reuse the
cached pool; on a miss call `create_engine` with the policy selected by
`db_name == self.main_db` (the regular values being read from the stored
tuples at index 0), insert the new pool into the cache, then create the
session.  The `connect` oracle supplies the outcome of pool connection,
`now` the value of `time.time()` at the cache insertion. -/
def DatabaseManager.create_session (self : DatabaseManager)
    (connect : Engine → Except PyExc Connection) (now : ℚ) (db_name : String) :
    (Except PyExc Session × List LogRecord) × DatabaseManager :=
  match (self.db_cacher.get db_name).1 with
  | some cached_db_pool => (createPoolConnection connect cached_db_pool, self)
  | none =>
      match (if db_name = self.main_db then Except.ok self.main_db_poolsize
             else self.regular_db_poolsize.subscriptZero),
            (if db_name = self.main_db then Except.ok self.main_db_recycle
             else self.regular_db_recycle.subscriptZero) with
      | Except.ok psize, Except.ok precycle =>
          let db_pool : Engine :=
            { url := self.db_url ++ "/" ++ db_name,
              pool_size := psize,
              pool_recycle := precycle,
              max_overflow := 10,
              pool_pre_ping := true,
              hide_parameters := true }
          (createPoolConnection connect db_pool,
           { self with db_cacher := self.db_cacher.setItem db_name db_pool now })
      | Except.error e, _ => ((Except.error e, []), self)
      | _, Except.error e => ((Except.error e, []), self)

/-- The engine that a cache miss in `create_session` constructs, given the
values stored in the regular sizing tuples. -/
def missEngine (mgr : DatabaseManager) (db_name : String) (rp rr : ℤ) : Engine :=
  { url := mgr.db_url ++ "/" ++ db_name,
    pool_size := if db_name = mgr.main_db then mgr.main_db_poolsize else rp,
    pool_recycle := if db_name = mgr.main_db then mgr.main_db_recycle else rr,
    max_overflow := 10,
    pool_pre_ping := true,
    hide_parameters := true }

/-- A connect oracle that always succeeds. -/
def connectUp : Engine → Except PyExc Connection :=
  fun eng => Except.ok { source_url := eng.url }

/-- A connect oracle that always fails with a driver-level error. -/
def connectDown : Engine → Except PyExc Connection :=
  fun _ => Except.error (PyExc.sqlalchemyError "connection refused")

/-- The manager produced by `DatabaseManager("main", "postgresql://host")`. -/
def sampleManager : DatabaseManager :=
  { db_cacher := IndividualTTLCache.init 10 900,
    main_db := "main",
    db_url := "postgresql://host",
    main_db_poolsize := 15,
    main_db_recycle := 900,
    regular_db_poolsize := PyNum.tuple [5],
    regular_db_recycle := PyNum.tuple [300] }

/-- A concrete engine used to exercise the failing connection path. -/
def sampleEngine : Engine :=
  { url := "postgresql://host/main", pool_size := 15, pool_recycle := 900,
    max_overflow := 10, pool_pre_ping := true, hide_parameters := true }

/-- Manager constructed with `main_db_poolsize=30`, `main_db_recycle=600`
and the regular sizing parameters left at their declared defaults. -/
def c4mgrE : Except PyExc DatabaseManager :=
  DatabaseManager.initPools "main" "postgresql://host" (some 30) (some 600)

/-- Manager constructed with `main_db_poolsize=2`, `regular_db_poolsize=0`. -/
def c9mgrE : Except PyExc DatabaseManager :=
  DatabaseManager.init "main" "postgresql://host" (some 2) (some 900) (some 0) (some 300)

/-! ### Lemmas about the dict model -/

theorem dictGet_of_not_mem {K V : Type} [DecidableEq K] {l : List (K × V)} {k : K}
    (h : k ∉ l.map Prod.fst) : dictGet l k = none := by
  induction l with
  | nil => rfl
  | cons hd tl ih =>
    obtain ⟨k1, v1⟩ := hd
    simp only [List.map_cons, List.mem_cons] at h
    push_neg at h
    simp only [dictGet]
    rw [if_neg fun he => h.1 he.symm]
    exact ih h.2

theorem mem_of_dictGet {K V : Type} [DecidableEq K] {l : List (K × V)} {k : K} {v : V}
    (h : dictGet l k = some v) : (k, v) ∈ l := by
  induction l with
  | nil => exact absurd h (by simp [dictGet])
  | cons hd tl ih =>
    obtain ⟨k1, v1⟩ := hd
    rw [dictGet] at h
    by_cases hk : k1 = k
    · rw [if_pos hk] at h
      injection h with hv
      rw [← hk, ← hv]
      exact List.mem_cons_self _ _
    · rw [if_neg hk] at h
      exact List.mem_cons_of_mem _ (ih h)

theorem dictGet_dictSet_self {K V : Type} [DecidableEq K] {l : List (K × V)} {k : K} {v : V} :
    dictGet (dictSet l k v) k = some v := by
  induction l with
  | nil => simp [dictSet, dictGet]
  | cons hd tl ih =>
    obtain ⟨k1, v1⟩ := hd
    by_cases hk : k1 = k
    · simp [dictSet, hk, dictGet]
    · simp [dictSet, hk, dictGet, ih]

theorem mem_keys_dictSet {K V : Type} [DecidableEq K] {l : List (K × V)} {k x : K} {v : V}
    (h : x ∈ (dictSet l k v).map Prod.fst) : x = k ∨ x ∈ l.map Prod.fst := by
  induction l with
  | nil => simpa [dictSet] using h
  | cons hd tl ih =>
    obtain ⟨k1, v1⟩ := hd
    by_cases hk : k1 = k
    · subst hk
      simpa [dictSet] using h
    · simp only [dictSet, if_neg hk, List.map_cons, List.mem_cons] at h
      rcases h with h1 | h2
      · exact Or.inr (by simp [h1])
      · rcases ih h2 with h3 | h4
        · exact Or.inl h3
        · exact Or.inr (by simp [h4])

theorem dictSet_nodup {K V : Type} [DecidableEq K] {l : List (K × V)} {k : K} {v : V}
    (h : (l.map Prod.fst).Nodup) : ((dictSet l k v).map Prod.fst).Nodup := by
  induction l with
  | nil => simp [dictSet]
  | cons hd tl ih =>
    obtain ⟨k1, v1⟩ := hd
    simp only [List.map_cons, List.nodup_cons] at h
    rw [dictSet]
    by_cases hk : k1 = k
    · rw [if_pos hk]
      simp only [List.map_cons, List.nodup_cons]
      refine ⟨?_, h.2⟩
      rw [← hk]
      exact h.1
    · rw [if_neg hk]
      simp only [List.map_cons, List.nodup_cons]
      refine ⟨fun hmem => ?_, ih h.2⟩
      rcases mem_keys_dictSet hmem with h1 | h2
      · exact hk h1
      · exact h.1 h2

theorem dictDel_sublist {K V : Type} [DecidableEq K] (l : List (K × V)) (k : K) :
    (dictDel l k).Sublist l := by
  induction l with
  | nil => exact List.Sublist.refl _
  | cons hd tl ih =>
    obtain ⟨k1, v1⟩ := hd
    by_cases hk : k1 = k
    · simp [dictDel, hk]
    · simpa [dictDel, hk] using List.Sublist.cons₂ (k1, v1) ih

theorem dictDel_nodup {K V : Type} [DecidableEq K] {l : List (K × V)} {k : K}
    (h : (l.map Prod.fst).Nodup) : ((dictDel l k).map Prod.fst).Nodup :=
  List.Nodup.sublist (List.Sublist.map Prod.fst (dictDel_sublist l k)) h

theorem dictGet_dictDel_self {K V : Type} [DecidableEq K] {l : List (K × V)} {k : K}
    (h : (l.map Prod.fst).Nodup) : dictGet (dictDel l k) k = none := by
  induction l with
  | nil => rfl
  | cons hd tl ih =>
    obtain ⟨k1, v1⟩ := hd
    simp only [List.map_cons, List.nodup_cons] at h
    by_cases hk : k1 = k
    · subst hk
      simp only [dictDel, if_pos rfl]
      exact dictGet_of_not_mem h.1
    · simp only [dictDel, if_neg hk, dictGet, if_neg hk]
      exact ih h.2

theorem dictGet_dictDel_ne {K V : Type} [DecidableEq K] {l : List (K × V)} {k0 k : K}
    (hne : k0 ≠ k) : dictGet (dictDel l k0) k = dictGet l k := by
  induction l with
  | nil => rfl
  | cons hd tl ih =>
    obtain ⟨k1, v1⟩ := hd
    rw [dictDel]
    by_cases h0 : k1 = k0
    · have h1 : ¬(k1 = k) := by
        rw [h0]
        exact hne
      rw [if_pos h0, dictGet, if_neg h1]
    · by_cases h1 : k1 = k
      · rw [if_neg h0, dictGet, if_pos h1, dictGet, if_pos h1]
      · rw [if_neg h0, dictGet, if_neg h1, dictGet, if_neg h1]
        exact ih

/-! ### Lemmas about the cache operations -/

theorem get_setItem_self {K P : Type} [DecidableEq K]
    {c : IndividualTTLCache K P} {k : K} {p : P} {now : ℚ} :
    ((c.setItem k p now).get k).1 = some p := by
  show Option.map (fun pc => pc.db_pool) (dictGet (dictSet c.connections k ⟨p, now⟩) k) = some p
  rw [dictGet_dictSet_self]
  rfl

theorem setItem_nodup {K P : Type} [DecidableEq K]
    {c : IndividualTTLCache K P} {k : K} {p : P} {now : ℚ}
    (h : (c.connections.map Prod.fst).Nodup) :
    (((c.setItem k p now).connections).map Prod.fst).Nodup := dictSet_nodup h

theorem delItem_nodup {K P : Type} [DecidableEq K]
    {c : IndividualTTLCache K P} {k : K}
    (h : (c.connections.map Prod.fst).Nodup) :
    (((c.delItem k).connections).map Prod.fst).Nodup := by
  unfold IndividualTTLCache.delItem
  by_cases hs : (dictGet c.connections k).isSome
  · simp only [if_pos hs]
    exact dictDel_nodup h
  · simp only [if_neg hs]
    exact h

theorem get_delItem_self {K P : Type} [DecidableEq K]
    {c : IndividualTTLCache K P} {k : K}
    (hnd : (c.connections.map Prod.fst).Nodup) :
    ((c.delItem k).get k).1 = none := by
  unfold IndividualTTLCache.delItem
  cases hdg : dictGet c.connections k with
  | none => simp [hdg, IndividualTTLCache.get]
  | some e => simp [hdg, IndividualTTLCache.get, dictGet_dictDel_self hnd]

theorem get_delItem_ne {K P : Type} [DecidableEq K]
    {c : IndividualTTLCache K P} {k0 k : K} (hne : k0 ≠ k) :
    ((c.delItem k0).get k).1 = (c.get k).1 := by
  unfold IndividualTTLCache.delItem
  by_cases hs : (dictGet c.connections k0).isSome
  · simp only [if_pos hs, IndividualTTLCache.get]
    rw [dictGet_dictDel_ne hne]
  · simp only [if_neg hs]

theorem delItem_of_get_none {K P : Type} [DecidableEq K]
    {c : IndividualTTLCache K P} {k : K} (h : (c.get k).1 = none) :
    c.delItem k = c := by
  have hd : dictGet c.connections k = none := by
    cases hdg : dictGet c.connections k with
    | none => rfl
    | some e =>
      exfalso
      have h2 : Option.map (fun pc => pc.db_pool) (dictGet c.connections k) = none := h
      rw [hdg] at h2
      exact Option.noConfusion h2
  unfold IndividualTTLCache.delItem
  rw [hd]
  rfl

theorem foldl_delItem_none {K P : Type} [DecidableEq K]
    {ks : List K} {c : IndividualTTLCache K P} {k : K}
    (h : (c.get k).1 = none) :
    ((ks.foldl (fun acc key => acc.delItem key) c).get k).1 = none := by
  induction ks generalizing c with
  | nil => exact h
  | cons k0 rest ih =>
    simp only [List.foldl_cons]
    apply ih
    show ((c.delItem k0).get k).1 = none
    by_cases h0 : k0 = k
    · subst h0
      rw [delItem_of_get_none h]
      exact h
    · rw [get_delItem_ne h0]
      exact h

theorem foldl_delItem_mem {K P : Type} [DecidableEq K]
    {ks : List K} {c : IndividualTTLCache K P} {k : K}
    (hnd : (c.connections.map Prod.fst).Nodup) (h : k ∈ ks) :
    ((ks.foldl (fun acc key => acc.delItem key) c).get k).1 = none := by
  induction ks generalizing c with
  | nil => cases h
  | cons k0 rest ih =>
    simp only [List.foldl_cons]
    by_cases hr : k ∈ rest
    · exact ih (delItem_nodup hnd) hr
    · have hk0 : k0 = k := by
        rcases List.mem_cons.mp h with h1 | h2
        · exact h1.symm
        · exact absurd h2 hr
      subst hk0
      exact foldl_delItem_none (get_delItem_self hnd)

theorem cleanup_removes {K P : Type} [DecidableEq K]
    {c : IndividualTTLCache K P} {k : K} {e : PoolConn P} {t : ℚ}
    (hnd : (c.connections.map Prod.fst).Nodup)
    (hget : dictGet c.connections k = some e) (hexp : e.life_time < t) :
    ((c.cleanup_expired_items t).get k).1 = none := by
  have hmem : (k, e) ∈ c.connections := mem_of_dictGet hget
  have hmemf : (k, e) ∈ c.connections.filter (fun kv => decide (kv.2.life_time < t)) := by
    rw [List.mem_filter]
    exact ⟨hmem, by simpa using hexp⟩
  have hk : k ∈ (c.connections.filter (fun kv => decide (kv.2.life_time < t))).map Prod.fst :=
    List.mem_map_of_mem Prod.fst hmemf
  exact foldl_delItem_mem hnd hk

theorem readSeq_id {K P : Type} [DecidableEq K]
    (c : IndividualTTLCache K P) (ks : List K) : c.readSeq ks = c := by
  induction ks generalizing c with
  | nil => rfl
  | cons k rest ih => exact ih c

/-! ### Lemmas about session creation -/

theorem createPoolConnection_error (connect : Engine → Except PyExc Connection)
    (eng : Engine) (e : PyExc) (h : connect eng = Except.error e) :
    (createPoolConnection connect eng).1 = Except.error e := by
  unfold createPoolConnection
  rw [h]
  cases e <;> rfl

theorem create_session_hit_eq (mgr : DatabaseManager)
    (connect : Engine → Except PyExc Connection) (now : ℚ) (db_name : String)
    (pool : Engine) (hhit : (mgr.db_cacher.get db_name).1 = some pool) :
    mgr.create_session connect now db_name = (createPoolConnection connect pool, mgr) := by
  unfold DatabaseManager.create_session
  rw [hhit]

theorem create_session_miss_eq (mgr : DatabaseManager)
    (connect : Engine → Except PyExc Connection) (now : ℚ) (db_name : String) (rp rr : ℤ)
    (hmiss : (mgr.db_cacher.get db_name).1 = none)
    (hrp : mgr.regular_db_poolsize = PyNum.tuple [rp])
    (hrr : mgr.regular_db_recycle = PyNum.tuple [rr]) :
    mgr.create_session connect now db_name =
      (createPoolConnection connect (missEngine mgr db_name rp rr),
       { mgr with db_cacher := mgr.db_cacher.setItem db_name (missEngine mgr db_name rp rr) now }) := by
  unfold DatabaseManager.create_session
  rw [hmiss, hrp, hrr]
  by_cases hmain : db_name = mgr.main_db
  · simp [hmain, PyNum.subscriptZero, missEngine]
  · simp [hmain, PyNum.subscriptZero, missEngine]

/-! ### Claim theorems -/

/-- Claim C1 (evaluation of the code at the failing input): inserting pool
`7` for key `"tenantA"` at time `100` into a cache constructed with
`default_ttl = 900` stores `life_time = 100`, the bare insertion time;
the expiry timestamp is not `now() + default_ttl = 1000`, since
`100 ≠ 100 + 900`.  `__setitem__` never adds `_default_ttl`. -/
theorem c1_setitem_stores_bare_insertion_time :
    ((IndividualTTLCache.init 10 900 :
        IndividualTTLCache String ℕ).setItem "tenantA" 7 100).lifeTimeOf "tenantA" = some 100 ∧
    (100 : ℚ) ≠ 100 + 900 := by
  exact ⟨rfl, by norm_num⟩

/-- Claim C2 (evaluation of the code at the failing input): with
`default_ttl = 900`, insert at time `0` and run one sweep at time `1`
(strictly before the claimed expiry `0 + 900`): the sweep deletes the
entry (`life_time < current_time` holds since `0 < 1`), so `get` returns
absent even though the TTL has not elapsed. -/
theorem c2_sweep_before_ttl_evicts :
    (((((IndividualTTLCache.init 10 900 :
        IndividualTTLCache String ℕ).setItem "tenantA" 7 0).cleanup_expired_items 1).get
          "tenantA")).1 = none ∧
    (1 : ℚ) < 0 + 900 := by
  exact ⟨rfl, by norm_num⟩

/-- Claim C3: a key inserted at time `T` into a cache whose `default_ttl`
is `D > 0` is absent from a `get` performed after a sweep that runs at
time `T + D + ε` for any `ε > 0`, regardless of any intervening `get`
calls (the list `reads`). -/
theorem c3_sweep_after_ttl_removes {K P : Type} [DecidableEq K]
    (c : IndividualTTLCache K P) (k : K) (p : P) (T D ε : ℚ) (reads : List K)
    (hnd : (c.connections.map Prod.fst).Nodup)
    (httl : c.default_ttl = D) (hD : 0 < D) (hε : 0 < ε) :
    ((((c.setItem k p T).readSeq reads).cleanup_expired_items (T + D + ε)).get k).1 = none := by
  rw [readSeq_id]
  exact cleanup_removes (setItem_nodup hnd) dictGet_dictSet_self (by linarith : T < T + D + ε)

/-- Witness for C3 at concrete inputs: a freshly constructed cache with
`default_ttl = 900`, key `"tenantA"` inserted at time `5`, two reads, and
a sweep at time `5 + 900 + 1`. -/
theorem c3_witness :
    (((IndividualTTLCache.init 10 900 :
        IndividualTTLCache String ℕ).connections.map Prod.fst).Nodup) ∧
    ((IndividualTTLCache.init 10 900 :
        IndividualTTLCache String ℕ).default_ttl = 900) ∧
    ((0 : ℚ) < 900) ∧ ((0 : ℚ) < 1) ∧
    (((((IndividualTTLCache.init 10 900 :
        IndividualTTLCache String ℕ).setItem "tenantA" 7 5).readSeq
          ["tenantA", "tenantA"]).cleanup_expired_items (5 + 900 + 1)).get "tenantA").1 = none :=
  ⟨List.nodup_nil, rfl, by norm_num, by norm_num,
    c3_sweep_after_ttl_removes (IndividualTTLCache.init 10 900) "tenantA" 7 5 900 1
      ["tenantA", "tenantA"] List.nodup_nil rfl (by norm_num) (by norm_num)⟩

/-- Claim C6: `get` has no side effects: a single `get` returns the cache
unchanged, any sequence of `get` calls leaves the mapping unchanged, and
in particular the stored expiry field of every key is unchanged by reads,
so an entry read many times still expires at the time computed at its
insertion. -/
theorem c6_get_no_side_effects {K P : Type} [DecidableEq K]
    (c : IndividualTTLCache K P) (k : K) (reads : List K) :
    (c.get k).2 = c ∧ c.readSeq reads = c ∧
    (c.readSeq reads).lifeTimeOf k = c.lifeTimeOf k :=
  ⟨rfl, readSeq_id c reads, by rw [readSeq_id]⟩

/-- Claim C7: `delete` on an absent key is a no-op: when `get` returns
absent (a non-error result), `__delitem__` raises nothing and leaves the
cache state completely unchanged.  (`get`, `setItem` and `delItem` are
total functions of the state by construction.) -/
theorem c7_delete_absent_noop {K P : Type} [DecidableEq K]
    (c : IndividualTTLCache K P) (k : K) (h : (c.get k).1 = none) :
    c.delItem k = c :=
  delItem_of_get_none h

/-- Witness for C7 at concrete inputs: the fresh cache has no entry for
`"absent"`, and deleting it returns the identical state. -/
theorem c7_witness :
    ((IndividualTTLCache.init 10 900 : IndividualTTLCache String ℕ).get "absent").1 = none ∧
    (IndividualTTLCache.init 10 900 : IndividualTTLCache String ℕ).delItem "absent" =
      IndividualTTLCache.init 10 900 :=
  ⟨rfl, c7_delete_absent_noop (IndividualTTLCache.init 10 900) "absent" rfl⟩

/-- Claim C5: on a cache miss, `create_session` builds the pool with the
main policy (`main_db_poolsize`, `main_db_recycle`) if and only if
`db_name` is exactly equal to the configured `main_db` string, and with
the regular policy values (the sole elements of the stored tuples)
otherwise; the selection is by exact string equality, with no partial
matching or case normalization, on every call and for every prior cache
state. -/
theorem c5_policy_selection_exact_equality (mgr : DatabaseManager)
    (connect : Engine → Except PyExc Connection) (now : ℚ) (db_name : String) (rp rr : ℤ)
    (hmiss : (mgr.db_cacher.get db_name).1 = none)
    (hrp : mgr.regular_db_poolsize = PyNum.tuple [rp])
    (hrr : mgr.regular_db_recycle = PyNum.tuple [rr]) :
    ((mgr.create_session connect now db_name).2.db_cacher.get db_name).1 =
      some { url := mgr.db_url ++ "/" ++ db_name,
             pool_size := if db_name = mgr.main_db then mgr.main_db_poolsize else rp,
             pool_recycle := if db_name = mgr.main_db then mgr.main_db_recycle else rr,
             max_overflow := 10,
             pool_pre_ping := true,
             hide_parameters := true } := by
  rw [create_session_miss_eq mgr connect now db_name rp rr hmiss hrp hrr]
  exact get_setItem_self

/-- Witness for C5 at concrete inputs: the default-constructed manager
with `main_db = "main"`; the key `"MAIN"` differs only in case, so it
receives the regular policy (pool_size 5, recycle 300), showing exact
equality with no case normalization. -/
theorem c5_witness :
    (sampleManager.db_cacher.get "MAIN").1 = none ∧
    sampleManager.regular_db_poolsize = PyNum.tuple [5] ∧
    sampleManager.regular_db_recycle = PyNum.tuple [300] ∧
    ((sampleManager.create_session connectUp 0 "MAIN").2.db_cacher.get "MAIN").1 =
      some { url := "postgresql://host/MAIN", pool_size := 5, pool_recycle := 300,
             max_overflow := 10, pool_pre_ping := true, hide_parameters := true } :=
  ⟨rfl, rfl, rfl,
    c5_policy_selection_exact_equality sampleManager connectUp 0 "MAIN" 5 300 rfl rfl rfl⟩

/-- Claim C8: during `_create_pool_connection`, every driver-level
(SQLAlchemy) error and every other unexpected error raised when acquiring
the connection is logged at error severity and re-raised unchanged as the
same exception: no translation, no retry, no fallback. -/
theorem c8_errors_logged_and_reraised (connect : Engine → Except PyExc Connection)
    (db_pool : Engine) (e : PyExc) (h : connect db_pool = Except.error e) :
    (createPoolConnection connect db_pool).1 = Except.error e ∧
    ∃ lr, lr ∈ (createPoolConnection connect db_pool).2 ∧ lr.severity = "error" := by
  constructor
  · exact createPoolConnection_error connect db_pool e h
  · unfold createPoolConnection
    rw [h]
    cases e <;> exact ⟨_, List.mem_singleton_self _, rfl⟩

/-- Witness for C8 at concrete inputs: the always-failing oracle on a
concrete engine. -/
theorem c8_witness :
    connectDown sampleEngine = Except.error (PyExc.sqlalchemyError "connection refused") ∧
    ((createPoolConnection connectDown sampleEngine).1 =
        Except.error (PyExc.sqlalchemyError "connection refused") ∧
      ∃ lr, lr ∈ (createPoolConnection connectDown sampleEngine).2 ∧ lr.severity = "error") :=
  ⟨rfl, c8_errors_logged_and_reraised connectDown sampleEngine
    (PyExc.sqlalchemyError "connection refused") rfl⟩

/-- Claim C10: on a cache miss, the new pool is inserted into the cache
before the connection is acquired; if every connection attempt fails with
`e`, the call still leaves the pool cached for the key (the insertion is
not rolled back), and a subsequent `create_session` for the same key hits
the cache and reuses that pool (same resulting state, session built from
the cached engine) instead of building another. -/
theorem c10_cache_insert_before_connect (mgr : DatabaseManager)
    (connect connect2 : Engine → Except PyExc Connection) (now now2 : ℚ)
    (db_name : String) (rp rr : ℤ) (e : PyExc)
    (hmiss : (mgr.db_cacher.get db_name).1 = none)
    (hrp : mgr.regular_db_poolsize = PyNum.tuple [rp])
    (hrr : mgr.regular_db_recycle = PyNum.tuple [rr])
    (hfail : ∀ eng, connect eng = Except.error e) :
    ∃ eng,
      (mgr.create_session connect now db_name).1.1 = Except.error e ∧
      ((mgr.create_session connect now db_name).2.db_cacher.get db_name).1 = some eng ∧
      (mgr.create_session connect now db_name).2.create_session connect2 now2 db_name =
        (createPoolConnection connect2 eng, (mgr.create_session connect now db_name).2) := by
  refine ⟨missEngine mgr db_name rp rr, ?_, ?_, ?_⟩
  · rw [create_session_miss_eq mgr connect now db_name rp rr hmiss hrp hrr]
    exact createPoolConnection_error connect _ e (hfail _)
  · rw [create_session_miss_eq mgr connect now db_name rp rr hmiss hrp hrr]
    exact get_setItem_self
  · rw [create_session_miss_eq mgr connect now db_name rp rr hmiss hrp hrr]
    exact create_session_hit_eq _ connect2 now2 db_name _ get_setItem_self

/-- Witness for C10 at concrete inputs: the default-constructed manager,
a failing first connection for `"tenant7"`, then a succeeding second call. -/
theorem c10_witness :
    (sampleManager.db_cacher.get "tenant7").1 = none ∧
    sampleManager.regular_db_poolsize = PyNum.tuple [5] ∧
    sampleManager.regular_db_recycle = PyNum.tuple [300] ∧
    (∀ eng, connectDown eng = Except.error (PyExc.sqlalchemyError "connection refused")) ∧
    (∃ eng,
      (sampleManager.create_session connectDown 0 "tenant7").1.1 =
        Except.error (PyExc.sqlalchemyError "connection refused") ∧
      ((sampleManager.create_session connectDown 0 "tenant7").2.db_cacher.get "tenant7").1 =
        some eng ∧
      (sampleManager.create_session connectDown 0 "tenant7").2.create_session connectUp 1
          "tenant7" =
        (createPoolConnection connectUp eng,
         (sampleManager.create_session connectDown 0 "tenant7").2)) :=
  ⟨rfl, rfl, rfl, fun _ => rfl,
    c10_cache_insert_before_connect sampleManager connectDown connectUp 0 1 "tenant7" 5 300
      (PyExc.sqlalchemyError "connection refused") rfl rfl rfl (fun _ => rfl)⟩

/-- Claim C4 counterexample: construct the manager with
`main_db_poolsize = 30`, `main_db_recycle = 600` and the regular sizing
parameters left at their declared defaults (`5`, `300`).  The stored
regular fields are one-element tuples (not plain ints), and the pool
built for a non-main tenant has `pool_size = 5` and `pool_recycle = 300`,
not `30 / 3 = 10` and `600 / 3 = 200` as the claim states. -/
theorem c4_regular_default_counterexample :
    c4mgrE.map (fun m => m.regular_db_poolsize) = Except.ok (PyNum.tuple [5]) ∧
    c4mgrE.map (fun m => m.regular_db_recycle) = Except.ok (PyNum.tuple [300]) ∧
    c4mgrE.map (fun m => m.regular_db_poolsize.isInt) = Except.ok false ∧
    c4mgrE.map (fun m =>
        (((m.create_session connectUp 0 "tenant7").2.db_cacher.get "tenant7").1.map
          (fun eng => (eng.pool_size, eng.pool_recycle)))) = Except.ok (some (5, 300)) ∧
    (5 : ℤ) ≠ Int.tdiv 30 3 ∧ (300 : ℤ) ≠ Int.tdiv 600 3 := by
  exact ⟨rfl, rfl, rfl, rfl, by decide, by decide⟩

/-- Claim C4 as amended: only an explicitly falsy `regular_db_poolsize`
(`None` or `0`) falls back to `int(main_db_poolsize/3)` (and likewise for
the recycle); an omitted parameter takes the declared default `5` (resp.
`300`).  The stored sizing fields are one-element tuples, whose sole
element (read back by subscripting index 0, as `create_session` does) is
the truncated division of the raw main parameter by 3. -/
theorem c4_regular_sizing_amended (md u : String) (m r : ℤ) (reg rrec : Option ℤ)
    (hreg : pyTruthyZ reg = false) (hrrec : pyTruthyZ rrec = false) :
    ∃ mgr, DatabaseManager.init md u (some m) (some r) reg rrec = Except.ok mgr ∧
      mgr.regular_db_poolsize = PyNum.tuple [Int.tdiv m 3] ∧
      mgr.regular_db_recycle = PyNum.tuple [Int.tdiv r 3] ∧
      mgr.regular_db_poolsize.subscriptZero = Except.ok (Int.tdiv m 3) ∧
      mgr.regular_db_recycle.subscriptZero = Except.ok (Int.tdiv r 3) := by
  have h1 : pyOrInt reg (intOfDivThree (some m)) = Except.ok (Int.tdiv m 3) := by
    unfold pyOrInt
    rw [hreg]
    rfl
  have h2 : pyOrInt rrec (intOfDivThree (some r)) = Except.ok (Int.tdiv r 3) := by
    unfold pyOrInt
    rw [hrrec]
    rfl
  refine ⟨{ db_cacher := IndividualTTLCache.init 10 900, main_db := md, db_url := u,
            main_db_poolsize := pyOrZ (some m) 15, main_db_recycle := pyOrZ (some r) 900,
            regular_db_poolsize := PyNum.tuple [Int.tdiv m 3],
            regular_db_recycle := PyNum.tuple [Int.tdiv r 3] }, ?_, rfl, rfl, rfl, rfl⟩
  unfold DatabaseManager.init
  rw [h1, h2]

/-- Witness for the amended C4 at concrete inputs: `main_db_poolsize = 30`,
`main_db_recycle = 900`, `regular_db_poolsize = None`,
`regular_db_recycle = 0`. -/
theorem c4_amended_witness :
    pyTruthyZ none = false ∧ pyTruthyZ (some 0) = false ∧
    (∃ mgr, DatabaseManager.init "main" "postgresql://host" (some 30) (some 900) none
        (some 0) = Except.ok mgr ∧
      mgr.regular_db_poolsize = PyNum.tuple [Int.tdiv 30 3] ∧
      mgr.regular_db_recycle = PyNum.tuple [Int.tdiv 900 3] ∧
      mgr.regular_db_poolsize.subscriptZero = Except.ok (Int.tdiv 30 3) ∧
      mgr.regular_db_recycle.subscriptZero = Except.ok (Int.tdiv 900 3)) :=
  ⟨rfl, rfl,
    c4_regular_sizing_amended "main" "postgresql://host" 30 900 none (some 0) rfl rfl⟩

/-- Claim C9 counterexample: constructing with `main_db_poolsize = 2` and
`regular_db_poolsize = 0` stores `int(2/3) = 0` as the regular pool size,
and `create_session` for a non-main tenant builds a pool with
`pool_size = 0`: a zero-sized pool can be configured. -/
theorem c9_zero_pool_counterexample :
    c9mgrE.map (fun m => m.regular_db_poolsize) = Except.ok (PyNum.tuple [0]) ∧
    c9mgrE.map (fun m =>
        (((m.create_session connectUp 0 "tenant7").2.db_cacher.get "tenant7").1.map
          (fun eng => eng.pool_size))) = Except.ok (some 0) := by
  exact ⟨rfl, rfl⟩

/-- Claim C9 as amended: a falsy explicit `0` is treated as unset for the
main sizing fields (`0 or 15 = 15`, `0 or 900 = 900`), and a falsy
regular parameter falls back to `int(main/3)` computed from the RAW
constructor argument; that fallback can itself be `0` (whenever
`|main_db_poolsize| < 3`), so a zero-sized regular pool can be
configured. -/
theorem c9_falsy_fallback_amended (md u : String) (m mr : ℤ) :
    ∃ mgr, DatabaseManager.init md u (some m) (some mr) (some 0) (some 0) = Except.ok mgr ∧
      mgr.main_db_poolsize = (if m = 0 then 15 else m) ∧
      mgr.main_db_recycle = (if mr = 0 then 900 else mr) ∧
      mgr.regular_db_poolsize = PyNum.tuple [Int.tdiv m 3] ∧
      mgr.regular_db_recycle = PyNum.tuple [Int.tdiv mr 3] := by
  refine ⟨{ db_cacher := IndividualTTLCache.init 10 900, main_db := md, db_url := u,
            main_db_poolsize := pyOrZ (some m) 15, main_db_recycle := pyOrZ (some mr) 900,
            regular_db_poolsize := PyNum.tuple [Int.tdiv m 3],
            regular_db_recycle := PyNum.tuple [Int.tdiv mr 3] }, ?_, ?_, ?_, rfl, rfl⟩
  · unfold DatabaseManager.init
    rfl
  · by_cases hm : m = 0 <;> simp [pyOrZ, pyTruthyZ, hm]
  · by_cases hmr : mr = 0 <;> simp [pyOrZ, pyTruthyZ, hmr]
